import Mathlib

/-!
Shallow embedding of the COLO (COarse-grain LOck-stepping) checkpoint core:
the control-channel codec, the Primary checkpoint transaction and loop, the
Secondary checkpoint round and loop, the failover arbiter, and the
migration-status transitions.  Functions keep the names of the C functions
they embed; external effects (channel reads/writes, VM stop/start, the
serializer, the proxy) are modelled by explicit oracles and event traces.
-/

/-! ## Sync tokens (the shared enum, READY = 0x46 and successors) -/

def COLO_READY : Nat := 0x46

def COLO_CHECKPOINT_NEW : Nat := 0x47

def COLO_CHECKPOINT_SUSPENDED : Nat := 0x48

def COLO_CHECKPOINT_SEND : Nat := 0x49

def COLO_CHECKPOINT_RECEIVED : Nat := 0x4a

def COLO_CHECKPOINT_LOADED : Nat := 0x4b

def COLO_GUEST_SHUTDOWN : Nat := 0x4c

/-- CHECKPOINT_MIN_PERIOD, the minimum time (ms) between two checkpoints. -/
def CHECKPOINT_MIN_PERIOD : Int := 100

/-- CHECKPOINT_MAX_PEROID (spelling as in the source), the force-checkpoint
timer default in ms. -/
def CHECKPOINT_MAX_PEROID : Int := 10000

/-- Initial value of the global colo_checkpoint_period variable. -/
def colo_checkpoint_period_init : Int := CHECKPOINT_MAX_PEROID

/-! ## Byte-level channel model (QEMUFile reads)

A QFile is the read side of a QEMUFile: the unread byte stream plus the
sticky error code returned by qemu_file_get_error (0 = no error, negative
= error).  qemu_get_byte returns 0 without consuming once an error is set,
and a read past end-of-stream sets a (generic) negative error code, as the
era's qemu_fill_buffer sets -EIO on a zero-length read. -/

structure QFile where
  bytes : List Nat
  err : Int
deriving DecidableEq

def qemu_get_byte (f : QFile) : Nat × QFile :=
  if f.err < 0 then (0, f)
  else
    match f.bytes with
    | [] => (0, { f with err := -1 })
    | b :: rest => (b % 256, { f with bytes := rest })

/-- qemu_get_be64: eight qemu_get_byte reads assembled most-significant
byte first. -/
def qemu_get_be64 (f : QFile) : Nat × QFile :=
  let r0 := qemu_get_byte f
  let r1 := qemu_get_byte r0.2
  let r2 := qemu_get_byte r1.2
  let r3 := qemu_get_byte r2.2
  let r4 := qemu_get_byte r3.2
  let r5 := qemu_get_byte r4.2
  let r6 := qemu_get_byte r5.2
  let r7 := qemu_get_byte r6.2
  (((((((r0.1 * 256 + r1.1) * 256 + r2.1) * 256 + r3.1) * 256 + r4.1) * 256
      + r5.1) * 256 + r6.1) * 256 + r7.1, r7.2)

/-- colo_ctl_get_value: read a big-endian u64; on channel error return -1
and leave the caller's value slot (the `value` argument) unchanged,
otherwise return 0 and the value read.  Result is (ret, *value, file). -/
def colo_ctl_get_value (f : QFile) (value : Nat) : Int × Nat × QFile :=
  let r := qemu_get_be64 f
  if r.2.err < 0 then (-1, value, r.2) else (0, r.1, r.2)

/-- Outcome of colo_ctl_get: either the function returns a code, or it
reports the expected/received pair via error_report and exits the process
(exit(1)), never returning. -/
inductive CtlGetOutcome where
  | ret (code : Int)
  | fatalExit (expected received : Nat)
deriving DecidableEq

/-- colo_ctl_get: colo_ctl_get_value then compare against `require`; a
mismatch logs both values and exits the process.  `v0` is the content of
the uninitialized local `value` slot. -/
def colo_ctl_get (f : QFile) (v0 require : Nat) : CtlGetOutcome × QFile :=
  let r := colo_ctl_get_value f v0
  if r.1 < 0 then (.ret r.1, r.2.2)
  else if r.2.1 ≠ require then (.fatalExit require r.2.1, r.2.2)
  else (.ret r.1, r.2.2)

/-! ## Protocol-level model of the Primary checkpoint transaction

At this layer each colo_ctl_get_value call on the control channel is
represented by its (return code, value) outcome, and each colo_ctl_put on
the data channel by the error code qemu_file_get_error reports after the
flush.  Writes are accumulated in an outbound trace. -/

/-- One unit written to the data channel: an 8-byte control value (token
or length) or the raw checkpoint-buffer bytes. -/
inductive WireMsg where
  | ctl (v : Nat)
  | raw (bytes : List Nat)
deriving DecidableEq

/-- How a transaction ends: a returned code, or process exit via the
mismatch branch of colo_ctl_get (error_report + exit(1)). -/
inductive TxResult where
  | ret (code : Int)
  | fatal (expected received : Nat)
deriving DecidableEq

/-- Externally visible side effects of the Primary transaction, in program
order. -/
inductive PEvent where
  | bufferReset
  | vmStop
  | savevmBegin
  | savevmComplete
  | proxyCheckpoint
  | shutdownCore
  | vmStart
deriving DecidableEq

/-- Oracle for one run of colo_do_checkpoint_transaction, fields in the
order the code consumes them.  `readSusp`, `readRecv`, `readLoaded` are the
(ret, value) outcomes of the colo_ctl_get_value calls inside the three
colo_ctl_get calls on the control channel; `failover1`/`failover2` are the
two failover_request_is_set() observations; `vmstate` is the byte string
the serializer deposits in colo_buffer; `sendBufErr` is
qemu_file_get_error after qsb_put_buffer + qemu_fflush. -/
structure PrimEnv where
  putNewErr : Int
  readSusp : Int × Nat
  bufopenOk : Bool
  failover1 : Bool
  failover2 : Bool
  vmstate : List Nat
  proxyRet : Int
  putSendErr : Int
  putSizeErr : Int
  sendBufErr : Int
  readRecv : Int × Nat
  readLoaded : Int × Nat
  shutdownReq : Bool
  putShutErr : Int
deriving DecidableEq

structure PrimOut where
  result : TxResult
  dataSent : List WireMsg
  ctlExpects : List Nat
  events : List PEvent
deriving DecidableEq

/-- colo_do_checkpoint_transaction (second, full version): the straight-line
body with goto-out early exits.  `ctlExpects` records the `require`
argument of each colo_ctl_get issued on the control channel; `dataSent` the
writes to s->file.  Note the source quirk: if qemu_bufopen fails the
function leaves with `ret` still 0 from the preceding colo_ctl_get. -/
def colo_do_checkpoint_transaction (e : PrimEnv) : PrimOut :=
  let sent0 := [WireMsg.ctl COLO_CHECKPOINT_NEW]
  if e.putNewErr < 0 then ⟨.ret e.putNewErr, sent0, [], []⟩ else
  let exp1 := [COLO_CHECKPOINT_SUSPENDED]
  if e.readSusp.1 < 0 then ⟨.ret (-1), sent0, exp1, []⟩ else
  if e.readSusp.2 ≠ COLO_CHECKPOINT_SUSPENDED then
    ⟨.fatal COLO_CHECKPOINT_SUSPENDED e.readSusp.2, sent0, exp1, []⟩ else
  let ev1 := [PEvent.bufferReset]
  if e.bufopenOk = false then ⟨.ret 0, sent0, exp1, ev1⟩ else
  if e.failover1 = true then ⟨.ret (-1), sent0, exp1, ev1⟩ else
  let ev2 := ev1 ++ [PEvent.vmStop]
  if e.failover2 = true then ⟨.ret (-1), sent0, exp1, ev2⟩ else
  let ev3 := ev2 ++ [PEvent.savevmBegin, PEvent.savevmComplete, PEvent.proxyCheckpoint]
  if e.proxyRet < 0 then ⟨.ret e.proxyRet, sent0, exp1, ev3⟩ else
  let sent1 := sent0 ++ [WireMsg.ctl COLO_CHECKPOINT_SEND]
  if e.putSendErr < 0 then ⟨.ret e.putSendErr, sent1, exp1, ev3⟩ else
  let sent2 := sent1 ++ [WireMsg.ctl e.vmstate.length]
  if e.putSizeErr < 0 then ⟨.ret e.putSizeErr, sent2, exp1, ev3⟩ else
  let sent3 := sent2 ++ [WireMsg.raw e.vmstate]
  if e.sendBufErr < 0 then ⟨.ret e.sendBufErr, sent3, exp1, ev3⟩ else
  let exp2 := exp1 ++ [COLO_CHECKPOINT_RECEIVED]
  if e.readRecv.1 < 0 then ⟨.ret (-1), sent3, exp2, ev3⟩ else
  if e.readRecv.2 ≠ COLO_CHECKPOINT_RECEIVED then
    ⟨.fatal COLO_CHECKPOINT_RECEIVED e.readRecv.2, sent3, exp2, ev3⟩ else
  let exp3 := exp2 ++ [COLO_CHECKPOINT_LOADED]
  if e.readLoaded.1 < 0 then ⟨.ret (-1), sent3, exp3, ev3⟩ else
  if e.readLoaded.2 ≠ COLO_CHECKPOINT_LOADED then
    ⟨.fatal COLO_CHECKPOINT_LOADED e.readLoaded.2, sent3, exp3, ev3⟩ else
  let sent4 := if e.shutdownReq then sent3 ++ [WireMsg.ctl COLO_GUEST_SHUTDOWN] else sent3
  let ev4 := if e.shutdownReq then ev3 ++ [PEvent.shutdownCore] else ev3
  ⟨.ret 0, sent4, exp3, ev4 ++ [PEvent.vmStart]⟩

/-- All channel operations succeed, the control channel delivers exactly the
required tokens, the buffer view opens, no failover is observed and the
proxy accepts the checkpoint: the conditions under which the round runs to
completion. -/
def GoodPrimEnv (e : PrimEnv) : Prop :=
  ¬ e.putNewErr < 0 ∧ ¬ e.readSusp.1 < 0 ∧
  e.readSusp.2 = COLO_CHECKPOINT_SUSPENDED ∧
  e.bufopenOk = true ∧ e.failover1 = false ∧ e.failover2 = false ∧
  ¬ e.proxyRet < 0 ∧ ¬ e.putSendErr < 0 ∧ ¬ e.putSizeErr < 0 ∧
  ¬ e.sendBufErr < 0 ∧ ¬ e.readRecv.1 < 0 ∧
  e.readRecv.2 = COLO_CHECKPOINT_RECEIVED ∧ ¬ e.readLoaded.1 < 0 ∧
  e.readLoaded.2 = COLO_CHECKPOINT_LOADED

instance (e : PrimEnv) : Decidable (GoodPrimEnv e) := by
  unfold GoodPrimEnv
  infer_instance

/-- Data-channel trace of one completed Primary round. -/
def primRoundMsgs (e : PrimEnv) : List WireMsg :=
  [WireMsg.ctl COLO_CHECKPOINT_NEW, WireMsg.ctl COLO_CHECKPOINT_SEND,
   WireMsg.ctl e.vmstate.length, WireMsg.raw e.vmstate] ++
  (if e.shutdownReq then [WireMsg.ctl COLO_GUEST_SHUTDOWN] else [])

/-- Control-channel expectations of one completed Primary round. -/
def primRoundExpects : List Nat :=
  [COLO_CHECKPOINT_SUSPENDED, COLO_CHECKPOINT_RECEIVED, COLO_CHECKPOINT_LOADED]

/-- Token-level view of colo_thread's checkpoint loop: run transactions in
sequence, stopping at the first one whose result is nonzero (the C loop
tests the return value and goes to `out`).  Returns the concatenated
data-channel trace and control-channel expectation trace. -/
def colo_primary_loop : List PrimEnv → List WireMsg × List Nat
  | [] => ([], [])
  | e :: rest =>
    let o := colo_do_checkpoint_transaction e
    if o.result = TxResult.ret 0 then
      (o.dataSent ++ (colo_primary_loop rest).1,
       o.ctlExpects ++ (colo_primary_loop rest).2)
    else (o.dataSent, o.ctlExpects)

/-! ## Secondary checkpoint round and loop -/

/-- Externally visible side effects of a Secondary round. -/
inductive SEvent where
  | vmStop
  | proxyCheckpoint
  | vmReset
  | loadvm
  | vmStart
deriving DecidableEq

/-- How a Secondary round ends: completed, goto-out failure, or process
exit via colo_ctl_get mismatch. -/
inductive SecRoundResult where
  | ok
  | failed
  | fatal (expected received : Nat)
deriving DecidableEq

/-- Oracle for one Secondary round body (the loop body of
colo_process_incoming_checkpoints after colo_wait_handle_cmd signalled a
checkpoint request).  `readSend` and `readSize` are the (ret, value)
outcomes of the colo_ctl_get_value reads for the CHECKPOINT_SEND token and
the announced total_size; `fillRet` is the int qsb_fill_buffer returns. -/
structure SecEnv where
  failover : Bool
  putSuspErr : Int
  proxyRet : Int
  readSend : Int × Nat
  readSize : Int × Nat
  fillRet : Int
  putRecvErr : Int
  bufopenOk : Bool
  loadvmRet : Int
  putLoadedErr : Int
deriving DecidableEq

structure SecRoundOut where
  ctlSent : List Nat
  events : List SEvent
  result : SecRoundResult
deriving DecidableEq

/-- One Secondary round: failover check, suspend guest, SUSPENDED, proxy
checkpoint, expect SEND, read the 8-byte length, qsb_fill_buffer exactly
that many bytes (the C compares `(uint64_t)ret != total_size`, hence the
mod-2^64 conversion of the int return), RECEIVED, open read view, silent
reset + loadvm under the iothread lock, LOADED, resume. -/
def colo_secondary_round (e : SecEnv) : SecRoundOut :=
  if e.failover = true then ⟨[], [], .failed⟩ else
  let ev1 := [SEvent.vmStop]
  let sent1 := [COLO_CHECKPOINT_SUSPENDED]
  if e.putSuspErr < 0 then ⟨sent1, ev1, .failed⟩ else
  let ev2 := ev1 ++ [SEvent.proxyCheckpoint]
  if e.proxyRet < 0 then ⟨sent1, ev2, .failed⟩ else
  if e.readSend.1 < 0 then ⟨sent1, ev2, .failed⟩ else
  if e.readSend.2 ≠ COLO_CHECKPOINT_SEND then
    ⟨sent1, ev2, .fatal COLO_CHECKPOINT_SEND e.readSend.2⟩ else
  if e.readSize.1 < 0 then ⟨sent1, ev2, .failed⟩ else
  if e.fillRet.emod (2 ^ 64) ≠ (e.readSize.2 : Int) then ⟨sent1, ev2, .failed⟩ else
  let sent2 := sent1 ++ [COLO_CHECKPOINT_RECEIVED]
  if e.putRecvErr < 0 then ⟨sent2, ev2, .failed⟩ else
  if e.bufopenOk = false then ⟨sent2, ev2, .failed⟩ else
  let ev3 := ev2 ++ [SEvent.vmReset, SEvent.loadvm]
  if e.loadvmRet < 0 then ⟨sent2, ev3, .failed⟩ else
  let sent3 := sent2 ++ [COLO_CHECKPOINT_LOADED]
  if e.putLoadedErr < 0 then ⟨sent3, ev3, .failed⟩ else
  ⟨sent3, ev3 ++ [SEvent.vmStart], .ok⟩

/-- A Secondary round in which every step succeeds. -/
def GoodSecEnv (e : SecEnv) : Prop :=
  e.failover = false ∧ ¬ e.putSuspErr < 0 ∧ ¬ e.proxyRet < 0 ∧
  ¬ e.readSend.1 < 0 ∧ e.readSend.2 = COLO_CHECKPOINT_SEND ∧
  ¬ e.readSize.1 < 0 ∧ e.fillRet.emod (2 ^ 64) = (e.readSize.2 : Int) ∧
  ¬ e.putRecvErr < 0 ∧ e.bufopenOk = true ∧ ¬ e.loadvmRet < 0 ∧
  ¬ e.putLoadedErr < 0

instance (e : SecEnv) : Decidable (GoodSecEnv e) := by
  unfold GoodSecEnv
  infer_instance

/-- Control-channel tokens of one completed Secondary round. -/
def secRoundSent : List Nat :=
  [COLO_CHECKPOINT_SUSPENDED, COLO_CHECKPOINT_RECEIVED, COLO_CHECKPOINT_LOADED]

/-- One iteration of the Secondary loop: the (ret, value) outcome of the
colo_ctl_get_value read inside colo_wait_handle_cmd, and the oracle for the
round body that runs if the command is CHECKPOINT_NEW. -/
structure SecIter where
  cmdRead : Int × Nat
  round : SecEnv
deriving DecidableEq

/-- How the Secondary loop left its while(true): break (wait_handle_cmd
returned -1), goto-out from a round, process exit from a token mismatch,
parked forever on GUEST_SHUTDOWN, or the supplied iteration oracle ran
out with the loop still live. -/
inductive SecSessionEnd where
  | brk
  | failedRound
  | fatal (expected received : Nat)
  | parked
  | live
deriving DecidableEq

def GoodSecIter (it : SecIter) : Prop :=
  ¬ it.cmdRead.1 < 0 ∧ it.cmdRead.2 = COLO_CHECKPOINT_NEW ∧ GoodSecEnv it.round

instance (it : SecIter) : Decidable (GoodSecIter it) := by
  unfold GoodSecIter
  infer_instance

/-- The while(true) of colo_process_incoming_checkpoints, one SecIter per
entry into colo_wait_handle_cmd.  Returns the control-channel token trace
and how the loop ended. -/
def colo_secondary_loop : List SecIter → List Nat × SecSessionEnd
  | [] => ([], .live)
  | it :: rest =>
    if it.cmdRead.1 < 0 then ([], .brk)
    else if it.cmdRead.2 = COLO_CHECKPOINT_NEW then
      let o := colo_secondary_round it.round
      match o.result with
      | .ok => (o.ctlSent ++ (colo_secondary_loop rest).1, (colo_secondary_loop rest).2)
      | .failed => (o.ctlSent, .failedRound)
      | .fatal a b => (o.ctlSent, .fatal a b)
    else if it.cmdRead.2 = COLO_GUEST_SHUTDOWN then ([], .parked)
    else ([], .brk)

/-- Session view of colo_process_incoming_checkpoints up to the out label:
`setupOk` stands for proxy init, control-channel open, RAM-cache creation
and buffer allocation all succeeding (none of them emits tokens);
`putReadyErr` is the error of the READY put.  The READY token is written
before the error of its flush is observed. -/
def colo_process_incoming_checkpoints (setupOk : Bool) (putReadyErr : Int)
    (iters : List SecIter) : List Nat × SecSessionEnd :=
  if setupOk = false then ([], .failedRound)
  else if putReadyErr < 0 then ([COLO_READY], .failedRound)
  else (COLO_READY :: (colo_secondary_loop iters).1, (colo_secondary_loop iters).2)

/-! ## Secondary loop termination (the out label) -/

inductive SecExit where
  | exitedProcess (code : Nat)
  | drained
deriving DecidableEq

structure SecTermOut where
  sleptUs : Int
  proxyDestroyed : Bool
  waitedForCompleted : Bool
  clearedRequest : Bool
  outcome : SecExit
deriving DecidableEq

/-- The out-label epilogue of colo_process_incoming_checkpoints: `f1` and
`f2` are the two failover_request_is_set() observations.  If the first is
clear the code sleeps 2 s; if the second is clear it destroys the proxy and
exits the process with code 1; otherwise it spins until failover_completed
and clears the request flag before releasing resources. -/
def colo_secondary_termination (f1 f2 : Bool) : SecTermOut :=
  let slept : Int := if f1 = false then 2000 * 1000 else 0
  if f2 = false then
    { sleptUs := slept, proxyDestroyed := true, waitedForCompleted := false,
      clearedRequest := false, outcome := .exitedProcess 1 }
  else
    { sleptUs := slept, proxyDestroyed := false, waitedForCompleted := true,
      clearedRequest := true, outcome := .drained }

/-! ## colo_wait_handle_cmd -/

/-- Outcome of colo_wait_handle_cmd: either the function returns (ret,
final *checkpoint_request), or it requests system shutdown under the
iothread lock and parks in the for(;;) loop, never returning. -/
inductive WaitCmdOut where
  | returned (ret request : Int)
  | parked (shutdownRequestedUnderLock : Bool)
deriving DecidableEq

/-- colo_wait_handle_cmd: `readErr`/`cmd` are the (ret, value) outcome of
its colo_ctl_get_value read; `request0` is the caller's in-out
checkpoint_request slot, left untouched except in the CHECKPOINT_NEW case. -/
def colo_wait_handle_cmd (readErr : Int) (cmd : Nat) (request0 : Int) : WaitCmdOut :=
  if readErr < 0 then .returned (-1) request0
  else if cmd = COLO_CHECKPOINT_NEW then .returned 0 1
  else if cmd = COLO_GUEST_SHUTDOWN then .parked true
  else .returned (-1) request0

/-! ## One iteration of the Primary checkpoint pacing loop (colo_thread) -/

/-- What one iteration of colo_thread's while loop did: left the loop
(failover, proxy error or failed transaction), slept without
checkpointing, or slept the stated microseconds and ran a successful
checkpoint transaction. -/
inductive IterStep where
  | exitLoop
  | sleptNoCheckpoint (us : Int)
  | ranCheckpoint (sleptUs : Int)
deriving DecidableEq

/-- One iteration of colo_thread's loop body.  `cmp` is
colo_proxy_compare(); `now1` is the clock read in the divergence branch,
`now2` the one in the no-trigger branch, `now3` the one after the
transaction; `cpTime` is checkpoint_time and `period` the current
colo_checkpoint_period.  Returns the step taken and the new
checkpoint_time. -/
def colo_thread_step (failover : Bool) (cmp now1 now2 now3 cpTime period : Int)
    (e : PrimEnv) : IterStep × Int :=
  if failover = true then (.exitLoop, cpTime)
  else if cmp < 0 then (.exitLoop, cpTime)
  else if cmp ≠ 0 then
    let interval := now1 - cpTime
    let slept := if interval < CHECKPOINT_MIN_PERIOD then
        1000 * (CHECKPOINT_MIN_PERIOD - interval) else 0
    if (colo_do_checkpoint_transaction e).result = TxResult.ret 0 then
      (.ranCheckpoint slept, now3)
    else (.exitLoop, cpTime)
  else if now2 - cpTime < period then (.sleptNoCheckpoint 100000, cpTime)
  else if (colo_do_checkpoint_transaction e).result = TxResult.ret 0 then
    (.ranCheckpoint 0, now3)
  else (.exitLoop, cpTime)

/-! ## Migration status and the Primary start-up sequence -/

inductive MigStatus where
  | active
  | colo
  | completed
  | failed
deriving DecidableEq

/-- migrate_set_state: atomic compare-and-set of the migration status. -/
def migrate_set_state (st fromSt toSt : MigStatus) : MigStatus :=
  if st = fromSt then toSt else st

/-- Observable events of the Primary start-up path. -/
inductive MEvent where
  | casState (fromSt toSt : MigStatus)
  | threadCreated
  | readyReceived
  | vmStarted
deriving DecidableEq

/-- colo_start_checkpointer: delete the bh, join the migration thread, CAS
the status ACTIVE to COLO, then create the colo thread.  Returns the new
status and the event trace. -/
def colo_start_checkpointer (st : MigStatus) : MigStatus × List MEvent :=
  (migrate_set_state st MigStatus.active MigStatus.colo,
   [MEvent.casState MigStatus.active MigStatus.colo, MEvent.threadCreated])

/-- Prefix of colo_thread up to vm_start: proxy init, control-channel
open, expect READY (a mismatch exits the process before the event is
recorded), allocate colo_buffer, start the VM.  `readReady` is the (ret,
value) outcome of the colo_ctl_get_value read inside colo_ctl_get. -/
def colo_thread_startup_events (proxyInitOk ctlOpenOk : Bool)
    (readReady : Int × Nat) (bufAllocOk : Bool) : List MEvent :=
  if proxyInitOk = false then []
  else if ctlOpenOk = false then []
  else if readReady.1 < 0 then []
  else if readReady.2 ≠ COLO_READY then []
  else if bufAllocOk = false then [MEvent.readyReceived]
  else [MEvent.readyReceived, MEvent.vmStarted]

/-- The Primary start-up event trace: colo_start_checkpointer followed by
the created colo_thread up to vm_start. -/
def colo_primary_session_events (proxyInitOk ctlOpenOk : Bool)
    (readReady : Int × Nat) (bufAllocOk : Bool) : List MEvent :=
  (colo_start_checkpointer MigStatus.active).2 ++
  colo_thread_startup_events proxyInitOk ctlOpenOk readReady bufAllocOk

/-- Status update performed by master_do_failover: unless the status is
already FAILED, CAS COLO to COMPLETED. -/
def master_do_failover_status (st : MigStatus) : MigStatus :=
  if st ≠ MigStatus.failed then migrate_set_state st MigStatus.colo MigStatus.completed
  else st

/-- Formalisation of claim C3's first half over a start-up trace: every
occurrence of the ACTIVE-to-COLO transition is preceded by a successful
READY reception. -/
def ColoEntryOnlyAfterReady (tr : List MEvent) : Prop :=
  ∀ i, tr.get? i = some (MEvent.casState MigStatus.active MigStatus.colo) →
    ∃ j, j < i ∧ tr.get? j = some MEvent.readyReceived

/-! ## Failover arbiter (src/migration/colo-failover.c) -/

/-- The globals of colo-failover.c that failover_request_set touches:
the request flag and, as an instrumentation counter, how many bottom
halves have been created and scheduled so far. -/
structure FailoverGlobals where
  failover_request : Bool
  bh_scheduled : Nat
deriving DecidableEq

def failover_globals_init : FailoverGlobals :=
  { failover_request := false, bh_scheduled := 0 }

/-- failover_request_set: set the flag, create a fresh bottom half and
schedule it.  The source has no guard against repeated calls: every call
allocates and schedules another bh (overwriting the failover_bh handle). -/
def failover_request_set (g : FailoverGlobals) : FailoverGlobals :=
  { failover_request := true, bh_scheduled := g.bh_scheduled + 1 }

/-! ## Helper lemmas -/

/-- A Primary round whose environment is good runs to completion with the
full data-channel pattern and the three control-channel expectations. -/
theorem prim_round_good_spec (e : PrimEnv) (h : GoodPrimEnv e) :
    colo_do_checkpoint_transaction e =
      ⟨TxResult.ret 0, primRoundMsgs e, primRoundExpects,
       [PEvent.bufferReset, PEvent.vmStop, PEvent.savevmBegin,
        PEvent.savevmComplete, PEvent.proxyCheckpoint] ++
       (if e.shutdownReq then [PEvent.shutdownCore] else []) ++ [PEvent.vmStart]⟩ := by
  obtain ⟨h1, h2, h3, h4, h5, h6, h7, h8, h9, h10, h11, h12, h13, h14⟩ := h
  cases hs : e.shutdownReq <;>
    simp [colo_do_checkpoint_transaction, primRoundMsgs, primRoundExpects,
          h1, h2, h3, h4, h5, h6, h7, h8, h9, h10, h11, h12, h13, h14, hs]

/-- A good Primary-loop prefix produces the concatenation of the per-round
patterns. -/
theorem colo_primary_loop_spec : ∀ envs : List PrimEnv,
    (∀ e ∈ envs, GoodPrimEnv e) →
    colo_primary_loop envs =
      ((envs.map primRoundMsgs).flatten,
       (envs.map (fun _ => primRoundExpects)).flatten) := by
  intro envs
  induction envs with
  | nil => intro _; simp [colo_primary_loop]
  | cons e rest ih =>
    intro h
    have he := h e (List.mem_cons_self e rest)
    have hrest : ∀ x ∈ rest, GoodPrimEnv x := fun x hx => h x (List.mem_cons_of_mem e hx)
    simp [colo_primary_loop, prim_round_good_spec e he, ih hrest]

/-- A Secondary round whose environment is good completes with the three
control-channel tokens. -/
theorem sec_round_good_spec (e : SecEnv) (h : GoodSecEnv e) :
    colo_secondary_round e =
      ⟨secRoundSent,
       [SEvent.vmStop, SEvent.proxyCheckpoint, SEvent.vmReset, SEvent.loadvm,
        SEvent.vmStart], SecRoundResult.ok⟩ := by
  obtain ⟨h1, h2, h3, h4, h5, h6, h7, h8, h9, h10, h11⟩ := h
  norm_num at h7
  simp [colo_secondary_round, secRoundSent, h1, h2, h3, h4, h5, h6, h7, h8, h9,
        h10, h11]

/-- A good Secondary-loop prefix produces the concatenation of the
per-round token triples and leaves the loop live. -/
theorem colo_secondary_loop_spec : ∀ iters : List SecIter,
    (∀ it ∈ iters, GoodSecIter it) →
    colo_secondary_loop iters =
      ((iters.map (fun _ => secRoundSent)).flatten, SecSessionEnd.live) := by
  intro iters
  induction iters with
  | nil => intro _; simp [colo_secondary_loop]
  | cons it rest ih =>
    intro h
    obtain ⟨hc1, hc2, hround⟩ := h it (List.mem_cons_self it rest)
    have hrest : ∀ x ∈ rest, GoodSecIter x := fun x hx => h x (List.mem_cons_of_mem it hx)
    simp [colo_secondary_loop, hc1, hc2, sec_round_good_spec it.round hround,
          ih hrest]

/-! ## Concrete environments used by witnesses -/

def primEnvOkA : PrimEnv :=
  { putNewErr := 0, readSusp := (0, COLO_CHECKPOINT_SUSPENDED), bufopenOk := true,
    failover1 := false, failover2 := false, vmstate := [1, 2, 3], proxyRet := 0,
    putSendErr := 0, putSizeErr := 0, sendBufErr := 0,
    readRecv := (0, COLO_CHECKPOINT_RECEIVED),
    readLoaded := (0, COLO_CHECKPOINT_LOADED), shutdownReq := false, putShutErr := 0 }

def primEnvOkB : PrimEnv :=
  { primEnvOkA with vmstate := [7], shutdownReq := true }

def secEnvOk : SecEnv :=
  { failover := false, putSuspErr := 0, proxyRet := 0,
    readSend := (0, COLO_CHECKPOINT_SEND), readSize := (0, 3), fillRet := 3,
    putRecvErr := 0, bufopenOk := true, loadvmRet := 0, putLoadedErr := 0 }

def secIterOk : SecIter :=
  { cmdRead := (0, COLO_CHECKPOINT_NEW), round := secEnvOk }

/-! ## Claim theorems -/

/-- C1: across any number of successful rounds the Primary's outbound
data-channel sequence is CHECKPOINT_NEW, CHECKPOINT_SEND, the u64 size,
the buffer bytes, then optionally GUEST_SHUTDOWN, its control-channel
expectations occur in the order SUSPENDED, RECEIVED, LOADED, and the
Secondary sends READY once at session start and then SUSPENDED, RECEIVED,
LOADED per round, with no reordering. -/
theorem colo_c1_token_ordering :
    (∀ envs : List PrimEnv, (∀ e ∈ envs, GoodPrimEnv e) →
      colo_primary_loop envs =
        ((envs.map primRoundMsgs).flatten,
         (envs.map (fun _ => primRoundExpects)).flatten)) ∧
    (∀ iters : List SecIter, (∀ it ∈ iters, GoodSecIter it) →
      colo_process_incoming_checkpoints true 0 iters =
        (COLO_READY :: (iters.map (fun _ => secRoundSent)).flatten,
         SecSessionEnd.live)) := by
  constructor
  · exact colo_primary_loop_spec
  · intro iters h
    simp [colo_process_incoming_checkpoints, colo_secondary_loop_spec iters h]

/-- Witness for C1 at two Primary rounds (the second with the shutdown
latch set) and two Secondary rounds. -/
theorem colo_c1_token_ordering_witness :
    ((∀ e ∈ [primEnvOkA, primEnvOkB], GoodPrimEnv e) ∧
      colo_primary_loop [primEnvOkA, primEnvOkB] =
        (([primEnvOkA, primEnvOkB].map primRoundMsgs).flatten,
         ([primEnvOkA, primEnvOkB].map (fun _ => primRoundExpects)).flatten)) ∧
    ((∀ it ∈ [secIterOk, secIterOk], GoodSecIter it) ∧
      colo_process_incoming_checkpoints true 0 [secIterOk, secIterOk] =
        (COLO_READY :: ([secIterOk, secIterOk].map (fun _ => secRoundSent)).flatten,
         SecSessionEnd.live)) :=
  ⟨⟨by decide, colo_c1_token_ordering.1 [primEnvOkA, primEnvOkB] (by decide)⟩,
   ⟨by decide, colo_c1_token_ordering.2 [secIterOk, secIterOk] (by decide)⟩⟩

/-- C2 counterexample: two calls to failover_request_set schedule two
bottom halves, not exactly one — the function has no idempotency guard. -/
theorem colo_c2_counterexample :
    (failover_request_set (failover_request_set failover_globals_init)).failover_request = true ∧
    (failover_request_set (failover_request_set failover_globals_init)).bh_scheduled ≠ 1 := by
  decide

/-- C2 amended: failover_request_set is not idempotent; after n calls the
flag is set and n bottom halves have been created and scheduled, so each
repeated call schedules additional work. -/
theorem colo_c2_amended : ∀ n : Nat, 1 ≤ n →
    (failover_request_set^[n] failover_globals_init).failover_request = true ∧
    (failover_request_set^[n] failover_globals_init).bh_scheduled = n := by
  intro n hn
  induction n with
  | zero => exact absurd hn (by omega)
  | succ k ih =>
    rw [Function.iterate_succ_apply']
    rcases Nat.eq_zero_or_pos k with hk | hk
    · subst hk
      simp [failover_request_set, failover_globals_init]
    · obtain ⟨h1, h2⟩ := ih hk
      simp [failover_request_set, h2]

/-- Witness for the amended C2 at three calls. -/
theorem colo_c2_amended_witness : 1 ≤ 3 ∧
    (failover_request_set^[3] failover_globals_init).failover_request = true ∧
    (failover_request_set^[3] failover_globals_init).bh_scheduled = 3 :=
  ⟨by decide, colo_c2_amended 3 (by decide)⟩

/-- C3 counterexample: on the good start-up path the ACTIVE-to-COLO
compare-and-set is the very first event, before the READY token is
received, so the status does not become COLO only after READY. -/
theorem colo_c3_counterexample :
    ¬ ColoEntryOnlyAfterReady
        (colo_primary_session_events true true (0, COLO_READY) true) := by
  intro h
  obtain ⟨j, hj, _⟩ := h 0 (by decide)
  omega

/-- C3 amended: the status becomes COLO through the compare-and-set
migrate_set_state(ACTIVE, COLO) in colo_start_checkpointer before the
checkpoint thread receives READY (the CAS is trace position 0, READY
reception position 2); entry happens only from ACTIVE and the failover
exit path leaves COLO only through the COLO-to-COMPLETED compare-and-set,
never by blind assignment. -/
theorem colo_c3_amended :
    (∀ readReady : Int × Nat, ¬ readReady.1 < 0 → readReady.2 = COLO_READY →
      colo_primary_session_events true true readReady true =
        [MEvent.casState MigStatus.active MigStatus.colo, MEvent.threadCreated,
         MEvent.readyReceived, MEvent.vmStarted]) ∧
    (colo_start_checkpointer MigStatus.active).1 = MigStatus.colo ∧
    (∀ st, st ≠ MigStatus.active → (colo_start_checkpointer st).1 = st) ∧
    master_do_failover_status MigStatus.colo = MigStatus.completed ∧
    (∀ st, st ≠ MigStatus.colo → master_do_failover_status st = st) := by
  refine ⟨?_, by decide, ?_, by decide, ?_⟩
  · intro readReady h1 h2
    simp [colo_primary_session_events, colo_start_checkpointer,
          colo_thread_startup_events, migrate_set_state, h1, h2]
  · intro st hst
    cases st <;> simp_all [colo_start_checkpointer, migrate_set_state]
  · intro st hst
    cases st <;> simp_all [master_do_failover_status, migrate_set_state]

/-- Witness for the amended C3 on the concrete good start-up path. -/
theorem colo_c3_amended_witness :
    ¬ ((0 : Int), COLO_READY).1 < 0 ∧
    colo_primary_session_events true true (0, COLO_READY) true =
      [MEvent.casState MigStatus.active MigStatus.colo, MEvent.threadCreated,
       MEvent.readyReceived, MEvent.vmStarted] :=
  ⟨by decide, colo_c3_amended.1 (0, COLO_READY) (by decide) rfl⟩

def qfileErr : QFile := { bytes := [], err := -2 }

def qfileReady : QFile := { bytes := [0, 0, 0, 0, 0, 0, 0, 0x46], err := 0 }

def qfileNine : QFile := { bytes := [1, 2, 3, 4, 5, 6, 7, 8, 9], err := 0 }

/-- C4: colo_ctl_get returns the error result of the failed read, returns
0 when the received value equals the required token, and on a mismatch
carries the expected and received values to the fatal exit path instead of
returning. -/
theorem colo_c4_expect_spec : ∀ (f : QFile) (v0 require : Nat),
    ((qemu_get_be64 f).2.err < 0 →
      colo_ctl_get f v0 require = (CtlGetOutcome.ret (-1), (qemu_get_be64 f).2)) ∧
    (¬ (qemu_get_be64 f).2.err < 0 → (qemu_get_be64 f).1 = require →
      colo_ctl_get f v0 require = (CtlGetOutcome.ret 0, (qemu_get_be64 f).2)) ∧
    (¬ (qemu_get_be64 f).2.err < 0 → (qemu_get_be64 f).1 ≠ require →
      colo_ctl_get f v0 require =
        (CtlGetOutcome.fatalExit require (qemu_get_be64 f).1, (qemu_get_be64 f).2)) := by
  intro f v0 require
  refine ⟨?_, ?_, ?_⟩
  · intro h
    simp [colo_ctl_get, colo_ctl_get_value, h]
  · intro h h2
    simp [colo_ctl_get, colo_ctl_get_value, h, h2]
  · intro h h2
    simp [colo_ctl_get, colo_ctl_get_value, h, h2]

/-- Witness for C4: a failed read, a matching token, and a mismatching
token, on concrete channels. -/
theorem colo_c4_expect_witness :
    ((qemu_get_be64 qfileErr).2.err < 0 ∧
      colo_ctl_get qfileErr 0 COLO_READY =
        (CtlGetOutcome.ret (-1), (qemu_get_be64 qfileErr).2)) ∧
    (¬ (qemu_get_be64 qfileReady).2.err < 0 ∧
      (qemu_get_be64 qfileReady).1 = COLO_READY ∧
      colo_ctl_get qfileReady 0 COLO_READY =
        (CtlGetOutcome.ret 0, (qemu_get_be64 qfileReady).2)) ∧
    (¬ (qemu_get_be64 qfileReady).2.err < 0 ∧
      (qemu_get_be64 qfileReady).1 ≠ COLO_CHECKPOINT_NEW ∧
      colo_ctl_get qfileReady 0 COLO_CHECKPOINT_NEW =
        (CtlGetOutcome.fatalExit COLO_CHECKPOINT_NEW (qemu_get_be64 qfileReady).1,
         (qemu_get_be64 qfileReady).2)) :=
  ⟨⟨by decide, (colo_c4_expect_spec qfileErr 0 COLO_READY).1 (by decide)⟩,
   ⟨by decide, by decide,
    (colo_c4_expect_spec qfileReady 0 COLO_READY).2.1 (by decide) (by decide)⟩,
   ⟨by decide, by decide,
    (colo_c4_expect_spec qfileReady 0 COLO_CHECKPOINT_NEW).2.2 (by decide) (by decide)⟩⟩

def primEnvFail1 : PrimEnv := { primEnvOkA with failover1 := true }

def primEnvFail2 : PrimEnv := { primEnvOkA with failover2 := true }

/-- C5: once a Primary transaction reaches the failover checks, an
observed failover request — at the check before the VM stop or at the one
right after it — makes the transaction return -1 before any serializer
call; the first check fires before the VM is stopped, the second after. -/
theorem colo_c5_failover_abort : ∀ e : PrimEnv,
    ¬ e.putNewErr < 0 → ¬ e.readSusp.1 < 0 →
    e.readSusp.2 = COLO_CHECKPOINT_SUSPENDED → e.bufopenOk = true →
    (e.failover1 = true ∨ e.failover2 = true) →
    (colo_do_checkpoint_transaction e).result = TxResult.ret (-1) ∧
    PEvent.savevmBegin ∉ (colo_do_checkpoint_transaction e).events ∧
    PEvent.savevmComplete ∉ (colo_do_checkpoint_transaction e).events ∧
    (e.failover1 = true → PEvent.vmStop ∉ (colo_do_checkpoint_transaction e).events) ∧
    (e.failover1 = false → e.failover2 = true →
      PEvent.vmStop ∈ (colo_do_checkpoint_transaction e).events) := by
  intro e h1 h2 h3 h4 h5
  by_cases hf1 : e.failover1 = true
  · simp [colo_do_checkpoint_transaction, h1, h2, h3, h4, hf1]
  · have hf1x : e.failover1 = false := by simpa using hf1
    have hf2 : e.failover2 = true := by
      rcases h5 with h | h
      · exact absurd h hf1
      · exact h
    simp [colo_do_checkpoint_transaction, h1, h2, h3, h4, hf1x, hf2]

/-- Witness for C5 at both check points on concrete environments. -/
theorem colo_c5_failover_abort_witness :
    ((primEnvFail1.failover1 = true ∨ primEnvFail1.failover2 = true) ∧
      ((colo_do_checkpoint_transaction primEnvFail1).result = TxResult.ret (-1) ∧
       PEvent.savevmBegin ∉ (colo_do_checkpoint_transaction primEnvFail1).events ∧
       PEvent.savevmComplete ∉ (colo_do_checkpoint_transaction primEnvFail1).events ∧
       (primEnvFail1.failover1 = true →
         PEvent.vmStop ∉ (colo_do_checkpoint_transaction primEnvFail1).events) ∧
       (primEnvFail1.failover1 = false → primEnvFail1.failover2 = true →
         PEvent.vmStop ∈ (colo_do_checkpoint_transaction primEnvFail1).events))) ∧
    ((primEnvFail2.failover1 = true ∨ primEnvFail2.failover2 = true) ∧
      ((colo_do_checkpoint_transaction primEnvFail2).result = TxResult.ret (-1) ∧
       PEvent.savevmBegin ∉ (colo_do_checkpoint_transaction primEnvFail2).events ∧
       PEvent.savevmComplete ∉ (colo_do_checkpoint_transaction primEnvFail2).events ∧
       (primEnvFail2.failover1 = true →
         PEvent.vmStop ∉ (colo_do_checkpoint_transaction primEnvFail2).events) ∧
       (primEnvFail2.failover1 = false → primEnvFail2.failover2 = true →
         PEvent.vmStop ∈ (colo_do_checkpoint_transaction primEnvFail2).events))) :=
  ⟨⟨by decide, colo_c5_failover_abort primEnvFail1 (by decide) (by decide)
      (by decide) (by decide) (by decide)⟩,
   ⟨by decide, colo_c5_failover_abort primEnvFail2 (by decide) (by decide)
      (by decide) (by decide) (by decide)⟩⟩

def secEnvMismatch : SecEnv := { secEnvOk with fillRet := 2 }

/-- C6: in a Secondary round that reaches the payload transfer, if the
number of bytes qsb_fill_buffer obtained differs from the announced
length the round fails, having sent only CHECKPOINT_SUSPENDED and in
particular no CHECKPOINT_RECEIVED. -/
theorem colo_c6_size_mismatch : ∀ e : SecEnv,
    e.failover = false → ¬ e.putSuspErr < 0 → ¬ e.proxyRet < 0 →
    ¬ e.readSend.1 < 0 → e.readSend.2 = COLO_CHECKPOINT_SEND →
    ¬ e.readSize.1 < 0 →
    e.fillRet.emod (2 ^ 64) ≠ (e.readSize.2 : Int) →
    (colo_secondary_round e).result = SecRoundResult.failed ∧
    (colo_secondary_round e).ctlSent = [COLO_CHECKPOINT_SUSPENDED] ∧
    COLO_CHECKPOINT_RECEIVED ∉ (colo_secondary_round e).ctlSent := by
  intro e h1 h2 h3 h4 h5 h6 h7
  norm_num at h7
  simp [colo_secondary_round, COLO_CHECKPOINT_RECEIVED, COLO_CHECKPOINT_SUSPENDED,
        h1, h2, h3, h4, h5, h6, h7]

/-- Witness for C6: announced length 3, only 2 bytes obtained. -/
theorem colo_c6_size_mismatch_witness :
    secEnvMismatch.fillRet.emod (2 ^ 64) ≠ (secEnvMismatch.readSize.2 : Int) ∧
    ((colo_secondary_round secEnvMismatch).result = SecRoundResult.failed ∧
     (colo_secondary_round secEnvMismatch).ctlSent = [COLO_CHECKPOINT_SUSPENDED] ∧
     COLO_CHECKPOINT_RECEIVED ∉ (colo_secondary_round secEnvMismatch).ctlSent) :=
  ⟨by decide,
   colo_c6_size_mismatch secEnvMismatch rfl (by decide) (by decide) (by decide)
     rfl (by decide) (by decide)⟩

/-- C7: in the Primary pacing loop, divergence with less than 100 ms since
the last checkpoint sleeps exactly the remaining microseconds before the
transaction; no trigger with elapsed time under the period sleeps 100 ms
without a checkpoint; otherwise the transaction runs and checkpoint_time
is reset to the clock read taken after it; the configurable period's
default is 10000 ms. -/
theorem colo_c7_pacing : ∀ (cmp now1 now2 now3 cpTime period : Int) (e : PrimEnv),
    (0 < cmp → now1 - cpTime < 100 →
      (colo_do_checkpoint_transaction e).result = TxResult.ret 0 →
      colo_thread_step false cmp now1 now2 now3 cpTime period e =
        (IterStep.ranCheckpoint (1000 * (100 - (now1 - cpTime))), now3)) ∧
    (cmp = 0 → now2 - cpTime < period →
      colo_thread_step false cmp now1 now2 now3 cpTime period e =
        (IterStep.sleptNoCheckpoint 100000, cpTime)) ∧
    (0 < cmp → ¬ now1 - cpTime < 100 →
      (colo_do_checkpoint_transaction e).result = TxResult.ret 0 →
      colo_thread_step false cmp now1 now2 now3 cpTime period e =
        (IterStep.ranCheckpoint 0, now3)) ∧
    (cmp = 0 → ¬ now2 - cpTime < period →
      (colo_do_checkpoint_transaction e).result = TxResult.ret 0 →
      colo_thread_step false cmp now1 now2 now3 cpTime period e =
        (IterStep.ranCheckpoint 0, now3)) ∧
    colo_checkpoint_period_init = 10000 := by
  intro cmp now1 now2 now3 cpTime period e
  refine ⟨?_, ?_, ?_, ?_, rfl⟩
  · intro hc hi ht
    have hn : ¬ cmp < 0 := by omega
    have hne : cmp ≠ 0 := by omega
    simp [colo_thread_step, CHECKPOINT_MIN_PERIOD, hn, hne, hi, ht]
  · intro hc hp
    subst hc
    simp [colo_thread_step, CHECKPOINT_MIN_PERIOD, hp]
  · intro hc hi ht
    have hn : ¬ cmp < 0 := by omega
    have hne : cmp ≠ 0 := by omega
    simp [colo_thread_step, CHECKPOINT_MIN_PERIOD, hn, hne, hi, ht]
  · intro hc hp ht
    subst hc
    simp [colo_thread_step, CHECKPOINT_MIN_PERIOD, hp, ht]

/-- Witness for C7: a divergence 30 ms after the last checkpoint sleeps
70000 us and checkpoints; a quiet poll 30 ms in sleeps 100 ms; a quiet
poll past the period checkpoints at once. -/
theorem colo_c7_pacing_witness :
    (0 < (1 : Int) ∧ (1030 : Int) - 1000 < 100 ∧
      (colo_do_checkpoint_transaction primEnvOkA).result = TxResult.ret 0 ∧
      colo_thread_step false 1 1030 0 1200 1000 10000 primEnvOkA =
        (IterStep.ranCheckpoint (1000 * (100 - (1030 - 1000))), 1200)) ∧
    ((1030 : Int) - 1000 < 10000 ∧
      colo_thread_step false 0 0 1030 1200 1000 10000 primEnvOkA =
        (IterStep.sleptNoCheckpoint 100000, 1000)) ∧
    (¬ (20000 : Int) - 1000 < 10000 ∧
      colo_thread_step false 0 0 20000 21000 1000 10000 primEnvOkA =
        (IterStep.ranCheckpoint 0, 21000)) :=
  ⟨⟨by decide, by decide, by decide,
    (colo_c7_pacing 1 1030 0 1200 1000 10000 primEnvOkA).1 (by decide) (by decide)
      (by decide)⟩,
   ⟨by decide,
    (colo_c7_pacing 0 0 1030 1200 1000 10000 primEnvOkA).2.1 rfl (by decide)⟩,
   ⟨by decide,
    (colo_c7_pacing 0 0 20000 21000 1000 10000 primEnvOkA).2.2.2.1 rfl (by decide)
      (by decide)⟩⟩

/-- C8: at Secondary loop termination, a clear failover flag means a 2 s
grace sleep before the re-check; still clear means proxy destruction and
process exit with code 1; a set flag (stable across the two reads, since
nothing clears it concurrently) means waiting for failover_completed and
clearing the request before releasing resources. -/
theorem colo_c8_secondary_termination : ∀ f1 f2 : Bool,
    (f1 = false → (colo_secondary_termination f1 f2).sleptUs = 2000 * 1000) ∧
    (f1 = false → f2 = false →
      (colo_secondary_termination f1 f2).proxyDestroyed = true ∧
      (colo_secondary_termination f1 f2).outcome = SecExit.exitedProcess 1) ∧
    ((f1 = true → f2 = true) → (f1 = true ∨ f2 = true) →
      (colo_secondary_termination f1 f2).waitedForCompleted = true ∧
      (colo_secondary_termination f1 f2).clearedRequest = true ∧
      (colo_secondary_termination f1 f2).outcome = SecExit.drained) := by
  decide

/-- Witness for C8: the no-failover exit path and the failover drain
path at concrete flag values. -/
theorem colo_c8_secondary_termination_witness :
    ((colo_secondary_termination false false).sleptUs = 2000 * 1000 ∧
     (colo_secondary_termination false false).proxyDestroyed = true ∧
     (colo_secondary_termination false false).outcome = SecExit.exitedProcess 1) ∧
    ((colo_secondary_termination true true).waitedForCompleted = true ∧
     (colo_secondary_termination true true).clearedRequest = true ∧
     (colo_secondary_termination true true).outcome = SecExit.drained) :=
  ⟨⟨(colo_c8_secondary_termination false false).1 rfl,
    (colo_c8_secondary_termination false false).2.1 rfl rfl⟩,
   (colo_c8_secondary_termination true true).2.2 (fun _ => rfl) (Or.inl rfl)⟩

/-- C9: colo_ctl_get_value returns -1 and leaves the caller's value slot
untouched when the channel reports an error, and otherwise returns 0 with
the 8-byte big-endian value assembled from the stream. -/
theorem colo_c9_get_value_spec : ∀ (f : QFile) (value : Nat),
    ((qemu_get_be64 f).2.err < 0 →
      colo_ctl_get_value f value = (-1, value, (qemu_get_be64 f).2)) ∧
    (∀ b0 b1 b2 b3 b4 b5 b6 b7 rest, f.err = 0 →
      f.bytes = b0 :: b1 :: b2 :: b3 :: b4 :: b5 :: b6 :: b7 :: rest →
      colo_ctl_get_value f value =
        (0,
         ((((((b0 % 256 * 256 + b1 % 256) * 256 + b2 % 256) * 256 + b3 % 256) * 256
             + b4 % 256) * 256 + b5 % 256) * 256 + b6 % 256) * 256 + b7 % 256,
         { bytes := rest, err := 0 })) := by
  intro f value
  constructor
  · intro h
    simp [colo_ctl_get_value, h]
  · intro b0 b1 b2 b3 b4 b5 b6 b7 rest herr hbytes
    rcases f with ⟨bs, er⟩
    simp only at herr hbytes
    subst herr
    subst hbytes
    simp [colo_ctl_get_value, qemu_get_be64, qemu_get_byte]

/-- Witness for C9: an errored channel leaves the slot at 5; a nine-byte
stream yields the big-endian value of its first eight bytes. -/
theorem colo_c9_get_value_witness :
    ((qemu_get_be64 qfileErr).2.err < 0 ∧
      colo_ctl_get_value qfileErr 5 = (-1, 5, (qemu_get_be64 qfileErr).2)) ∧
    (qfileNine.err = 0 ∧
      colo_ctl_get_value qfileNine 5 =
        (0,
         ((((((1 % 256 * 256 + 2 % 256) * 256 + 3 % 256) * 256 + 4 % 256) * 256
             + 5 % 256) * 256 + 6 % 256) * 256 + 7 % 256) * 256 + 8 % 256,
         { bytes := [9], err := 0 })) :=
  ⟨⟨by decide, (colo_c9_get_value_spec qfileErr 5).1 (by decide)⟩,
   ⟨rfl, (colo_c9_get_value_spec qfileNine 5).2 1 2 3 4 5 6 7 8 [9] rfl rfl⟩⟩

/-- C10: colo_wait_handle_cmd returns 0 with checkpoint_request set to 1
exactly when the token is CHECKPOINT_NEW; it returns -1 leaving the
request slot untouched on a read error or on any token other than
CHECKPOINT_NEW and GUEST_SHUTDOWN; and on GUEST_SHUTDOWN it requests
shutdown under the iothread lock and parks forever instead of returning. -/
theorem colo_c10_wait_handle_cmd : ∀ (readErr : Int) (cmd : Nat) (request0 : Int),
    (¬ readErr < 0 →
      (colo_wait_handle_cmd readErr cmd request0 = WaitCmdOut.returned 0 1 ↔
        cmd = COLO_CHECKPOINT_NEW)) ∧
    (readErr < 0 →
      colo_wait_handle_cmd readErr cmd request0 = WaitCmdOut.returned (-1) request0) ∧
    (¬ readErr < 0 → cmd ≠ COLO_CHECKPOINT_NEW → cmd ≠ COLO_GUEST_SHUTDOWN →
      colo_wait_handle_cmd readErr cmd request0 = WaitCmdOut.returned (-1) request0) ∧
    (¬ readErr < 0 → cmd = COLO_GUEST_SHUTDOWN →
      colo_wait_handle_cmd readErr cmd request0 = WaitCmdOut.parked true) := by
  intro readErr cmd request0
  refine ⟨?_, ?_, ?_, ?_⟩
  · intro h
    by_cases hc : cmd = COLO_CHECKPOINT_NEW
    · simp [colo_wait_handle_cmd, h, hc]
    · by_cases hs : cmd = COLO_GUEST_SHUTDOWN
      · simp [colo_wait_handle_cmd, h, hc, hs, COLO_GUEST_SHUTDOWN, COLO_CHECKPOINT_NEW]
      · simp [colo_wait_handle_cmd, h, hc, hs]
  · intro h
    simp [colo_wait_handle_cmd, h]
  · intro h hc hs
    simp [colo_wait_handle_cmd, h, hc, hs]
  · intro h hs
    simp [colo_wait_handle_cmd, h, hs, COLO_GUEST_SHUTDOWN, COLO_CHECKPOINT_NEW]

/-- Witness for C10: a read error, the CHECKPOINT_NEW token, an unknown
token and the GUEST_SHUTDOWN token at concrete inputs. -/
theorem colo_c10_wait_handle_cmd_witness :
    ((-3 : Int) < 0 ∧
      colo_wait_handle_cmd (-3) 5 7 = WaitCmdOut.returned (-1) 7) ∧
    (colo_wait_handle_cmd 0 COLO_CHECKPOINT_NEW 7 = WaitCmdOut.returned 0 1) ∧
    ((5 : Nat) ≠ COLO_CHECKPOINT_NEW ∧ (5 : Nat) ≠ COLO_GUEST_SHUTDOWN ∧
      colo_wait_handle_cmd 0 5 7 = WaitCmdOut.returned (-1) 7) ∧
    colo_wait_handle_cmd 0 COLO_GUEST_SHUTDOWN 7 = WaitCmdOut.parked true :=
  ⟨⟨by decide, (colo_c10_wait_handle_cmd (-3) 5 7).2.1 (by decide)⟩,
   ((colo_c10_wait_handle_cmd 0 COLO_CHECKPOINT_NEW 7).1 (by decide)).mpr rfl,
   ⟨by decide, by decide,
    (colo_c10_wait_handle_cmd 0 5 7).2.2.1 (by decide) (by decide) (by decide)⟩,
   (colo_c10_wait_handle_cmd 0 COLO_GUEST_SHUTDOWN 7).2.2.2 (by decide) rfl⟩
